import Mathlib

/-!
Shallow embedding of the `tg-assistant-infra` CDK application.

The embedding follows the two stack constructors in
`infrastructure/lib` (`SQSStack`, `ApiGatewayStack`) and the
orchestrator in `infrastructure/bin/tg-assistant-infra.ts`.
Resource graphs are plain Lean structures; deploy-time tokens
(queue ARNs, role ARNs, ...) are symbolic references.
-/

namespace TgAssistantInfra

/-- JavaScript truthiness of an optional string prop: `undefined` and the
empty string are falsy, any other string is truthy. -/
def truthy : Option String → Bool
  | none => false
  | some s => !(s == "")

/-- Nullish coalescing `a ?? b` on optional strings (only `undefined`
falls through, the empty string does not). -/
def nullishOr (a b : Option String) : Option String :=
  match a with
  | some s => some s
  | none => b

/-- Symbolic deploy-time ARN references inside one messaging stack.
`wildcard` models the literal `"*"` resource, which the builder must
never emit. -/
inductive ArnRef where
  | orderQueueArn
  | resultQueueArn
  | orderDLQArn
  | resultDLQArn
  | queueEncryptionKeyArn
  | wildcard
  deriving DecidableEq, Repr

/-- Shape of the `orderQueueConfig` / `resultQueueConfig` props. -/
structure QueueConfig where
  visibilityTimeoutSeconds : Option Nat := none
  maxReceiveCount : Option Nat := none
  deriving DecidableEq, Repr

/-- The `SQSStackProps` interface. -/
structure SQSStackProps where
  environment : String
  projectName : String
  enableEncryption : Option Bool := none
  enableCostOptimization : Option Bool := none
  watchTowerTopicArn : Option String := none
  orderQueueConfig : Option QueueConfig := none
  resultQueueConfig : Option QueueConfig := none
  deriving DecidableEq, Repr

/-- The KMS key resource (`new Key(...)`). -/
structure KeyModel where
  description : String
  enableKeyRotation : Bool
  deriving DecidableEq, Repr

/-- A queue redrive target (`deadLetterQueue: { queue, maxReceiveCount }`). -/
structure DeadLetterRef where
  queue : ArnRef
  maxReceiveCount : Nat
  deriving DecidableEq, Repr

/-- An SQS queue resource (`new Queue(...)`); optional fields are the
props the source may leave unset. -/
structure QueueModel where
  queueName : String
  visibilityTimeoutSeconds : Option Nat := none
  retentionDays : Nat
  receiveMessageWaitTimeSeconds : Option Nat := none
  deadLetterQueue : Option DeadLetterRef := none
  encryptionMasterKey : Option ArnRef := none
  deriving DecidableEq, Repr

/-- IAM policy effect. -/
inductive EffectModel where
  | allow
  | deny
  deriving DecidableEq, Repr

/-- One `PolicyStatement`; for the webhook statement the
`StringEquals aws:SourceAccount` condition is recorded as a flag. -/
structure PolicyStatementModel where
  effect : EffectModel
  actions : List String
  resources : List ArnRef
  hasSourceAccountCondition : Bool := false
  deriving DecidableEq, Repr

/-- An IAM role (`new Role(...)`). `inlinePolicies` maps a policy name to
its statement list. -/
structure RoleModel where
  roleName : String
  assumedBy : String
  managedPolicies : List String
  inlinePolicies : List (String × List PolicyStatementModel)
  deriving DecidableEq, Repr

/-- CloudWatch metric references used by the two stacks. -/
inductive MetricRef where
  | approximateAgeOfOldestMessage (queue : ArnRef) (periodMinutes : Nat)
  | approximateNumberOfMessagesVisible (queue : ArnRef)
  | apiServerError (periodMinutes : Nat) (statistic : String)
  | apiLatency (periodMinutes : Nat) (statistic : String)
  deriving DecidableEq, Repr

/-- The `TreatMissingData` enum; an alarm whose prop is unset keeps the
service default (treat missing data as breaching/missing). -/
inductive TreatMissingDataModel where
  | breaching
  | notBreaching
  | ignore
  | missing
  deriving DecidableEq, Repr

/-- SNS topics an alarm action can target in this app. -/
inductive SnsTargetRef where
  | queueAlertTopic
  | apiAlertTopic
  deriving DecidableEq, Repr

/-- A CloudWatch alarm together with the SNS actions wired onto it. -/
structure AlarmModel where
  alarmName : String
  alarmDescription : String
  metric : MetricRef
  threshold : Nat
  evaluationPeriods : Nat
  treatMissingData : Option TreatMissingDataModel := none
  alarmActions : List SnsTargetRef := []
  okActions : List SnsTargetRef := []
  deriving DecidableEq, Repr

/-- An SNS topic (`new Topic(...)`). -/
structure TopicModel where
  topicName : String
  displayName : String
  masterKey : Option ArnRef := none
  deriving DecidableEq, Repr

/-- Values published to SSM parameters; deploy-time tokens are symbolic,
`queueConfigJson` keeps the serialized numbers. -/
inductive ParamValue where
  | orderQueueUrl
  | orderQueueArn
  | resultQueueUrl
  | resultQueueArn
  | queueConfigJson (orderVisibilitySeconds orderMaxReceive
      resultVisibilitySeconds resultMaxReceive : Nat)
  | webhookRoleArn
  | workerRoleArn
  | feedbackRoleArn
  | queueAlertTopicArn
  | restApiId
  | restApiUrl
  | apiSourceArn
  | str (s : String)
  deriving DecidableEq, Repr

/-- One `StringParameter` export. -/
structure StringParameterModel where
  parameterName : String
  stringValue : ParamValue
  description : String
  deriving DecidableEq, Repr

/-- The resource graph produced by the `SQSStack` constructor. -/
structure SQSStackModel where
  queueEncryptionKey : KeyModel
  orderDLQ : QueueModel
  resultDLQ : QueueModel
  orderQueue : QueueModel
  resultQueue : QueueModel
  webhookRole : RoleModel
  workerRole : RoleModel
  feedbackRole : RoleModel
  alarms : List AlarmModel
  queueAlertTopic : TopicModel
  parameters : List StringParameterModel
  deriving DecidableEq, Repr

/-- The `SQSStack` constructor, translated statement by statement from
`infrastructure/lib` (DLQs first, then primary queues, roles, alarms,
topic, alarm wiring, SSM exports). -/
def mkSQSStack (props : SQSStackProps) : SQSStackModel :=
  let environment := props.environment
  let projectName := props.projectName
  let enableEncryption := props.enableEncryption.getD true
  let queueEncryptionKey : KeyModel :=
    { description := projectName ++ "-" ++ environment ++ " SQS encryption key"
      enableKeyRotation := true }
  let encryptionOpt : Option ArnRef :=
    if enableEncryption then some ArnRef.queueEncryptionKeyArn else none
  let orderDLQ : QueueModel :=
    { queueName := projectName ++ "-" ++ environment ++ "-order-dlq"
      retentionDays := 7
      encryptionMasterKey := encryptionOpt }
  let resultDLQ : QueueModel :=
    { queueName := projectName ++ "-" ++ environment ++ "-result-dlq"
      retentionDays := 7
      encryptionMasterKey := encryptionOpt }
  let orderVisibility :=
    (props.orderQueueConfig.bind QueueConfig.visibilityTimeoutSeconds).getD 300
  let orderMaxReceive :=
    (props.orderQueueConfig.bind QueueConfig.maxReceiveCount).getD 3
  let orderQueue : QueueModel :=
    { queueName := projectName ++ "-" ++ environment ++ "-order"
      visibilityTimeoutSeconds := some orderVisibility
      retentionDays := 14
      receiveMessageWaitTimeSeconds := some 6
      deadLetterQueue := some
        { queue := ArnRef.orderDLQArn, maxReceiveCount := orderMaxReceive }
      encryptionMasterKey := encryptionOpt }
  let resultVisibility :=
    (props.resultQueueConfig.bind QueueConfig.visibilityTimeoutSeconds).getD 180
  let resultMaxReceive :=
    (props.resultQueueConfig.bind QueueConfig.maxReceiveCount).getD 3
  let resultQueue : QueueModel :=
    { queueName := projectName ++ "-" ++ environment ++ "-result"
      visibilityTimeoutSeconds := some resultVisibility
      retentionDays := 7
      receiveMessageWaitTimeSeconds := some 6
      deadLetterQueue := some
        { queue := ArnRef.resultDLQArn, maxReceiveCount := resultMaxReceive }
      encryptionMasterKey := encryptionOpt }
  let webhookRole : RoleModel :=
    { roleName := projectName ++ "-" ++ environment ++ "-webhook-role"
      assumedBy := "lambda.amazonaws.com"
      managedPolicies := ["service-role/AWSLambdaBasicExecutionRole"]
      inlinePolicies :=
        [("OrderQueueProducer",
          [ { effect := EffectModel.allow
              actions := ["sqs:SendMessage", "sqs:GetQueueAttributes",
                          "sqs:GetQueueUrl"]
              resources := [ArnRef.orderQueueArn]
              hasSourceAccountCondition := true },
            { effect := EffectModel.allow
              actions := ["kms:Decrypt", "kms:GenerateDataKey"]
              resources := [ArnRef.queueEncryptionKeyArn] } ])] }
  let workerRole : RoleModel :=
    { roleName := projectName ++ "-" ++ environment ++ "-worker-role"
      assumedBy := "lambda.amazonaws.com"
      managedPolicies := ["service-role/AWSLambdaBasicExecutionRole"]
      inlinePolicies :=
        [("DualQueueWorkerAccess",
          [ { effect := EffectModel.allow
              actions := ["sqs:ReceiveMessage", "sqs:DeleteMessage",
                          "sqs:ChangeMessageVisibility",
                          "sqs:GetQueueAttributes"]
              resources := [ArnRef.orderQueueArn] },
            { effect := EffectModel.allow
              actions := ["sqs:SendMessage", "sqs:GetQueueAttributes"]
              resources := [ArnRef.resultQueueArn] },
            { effect := EffectModel.allow
              actions := ["kms:Decrypt", "kms:GenerateDataKey"]
              resources := [ArnRef.queueEncryptionKeyArn] } ])] }
  let feedbackRole : RoleModel :=
    { roleName := projectName ++ "-" ++ environment ++ "-feedback-role"
      assumedBy := "lambda.amazonaws.com"
      managedPolicies := ["service-role/AWSLambdaBasicExecutionRole"]
      inlinePolicies :=
        [("FeedbackDualQueueAccess",
          [ { effect := EffectModel.allow
              actions := ["sqs:ReceiveMessage", "sqs:DeleteMessage",
                          "sqs:ChangeMessageVisibility",
                          "sqs:GetQueueAttributes"]
              resources := [ArnRef.resultQueueArn] },
            { effect := EffectModel.allow
              actions := ["sqs:SendMessage", "sqs:GetQueueAttributes"]
              resources := [ArnRef.orderQueueArn] },
            { effect := EffectModel.allow
              actions := ["kms:Decrypt", "kms:GenerateDataKey"]
              resources := [ArnRef.queueEncryptionKeyArn] } ])] }
  let stackName := projectName ++ "-" ++ environment
  let snsWiring : List SnsTargetRef := [SnsTargetRef.queueAlertTopic]
  let orderQueueAgeAlarm : AlarmModel :=
    { alarmName := stackName ++ "-order-message-age"
      alarmDescription := "Order messages aging in queue"
      metric := MetricRef.approximateAgeOfOldestMessage ArnRef.orderQueueArn 5
      threshold := 900
      evaluationPeriods := 2
      alarmActions := snsWiring
      okActions := snsWiring }
  let resultQueueAgeAlarm : AlarmModel :=
    { alarmName := stackName ++ "-result-message-age"
      alarmDescription := "Result messages aging in queue"
      metric := MetricRef.approximateAgeOfOldestMessage ArnRef.resultQueueArn 3
      threshold := 600
      evaluationPeriods := 2
      alarmActions := snsWiring
      okActions := snsWiring }
  let orderDLQAlarm : AlarmModel :=
    { alarmName := stackName ++ "-order-dlq-messages"
      alarmDescription := "Failed orders in Dead Letter Queue"
      metric := MetricRef.approximateNumberOfMessagesVisible ArnRef.orderDLQArn
      threshold := 1
      evaluationPeriods := 1
      treatMissingData := some TreatMissingDataModel.notBreaching
      alarmActions := snsWiring
      okActions := snsWiring }
  let resultDLQAlarm : AlarmModel :=
    { alarmName := stackName ++ "-result-dlq-messages"
      alarmDescription := "Failed results in Dead Letter Queue"
      metric := MetricRef.approximateNumberOfMessagesVisible ArnRef.resultDLQArn
      threshold := 1
      evaluationPeriods := 1
      alarmActions := snsWiring
      okActions := snsWiring }
  let queueAlertTopic : TopicModel :=
    { topicName := stackName ++ "-queue-alerts"
      displayName := "SQS Alerts for Watch Tower"
      masterKey := some ArnRef.queueEncryptionKeyArn }
  { queueEncryptionKey := queueEncryptionKey
    orderDLQ := orderDLQ
    resultDLQ := resultDLQ
    orderQueue := orderQueue
    resultQueue := resultQueue
    webhookRole := webhookRole
    workerRole := workerRole
    feedbackRole := feedbackRole
    alarms := [orderQueueAgeAlarm, resultQueueAgeAlarm, orderDLQAlarm,
               resultDLQAlarm]
    queueAlertTopic := queueAlertTopic
    parameters :=
      [ { parameterName := "/automation/" ++ environment ++ "/queues/order/url"
          stringValue := ParamValue.orderQueueUrl
          description :=
            "Order Queue URL for task distribution and requeue operations" },
        { parameterName := "/automation/" ++ environment ++ "/queues/order/arn"
          stringValue := ParamValue.orderQueueArn
          description := "Order Queue ARN for IAM permissions and monitoring" },
        { parameterName := "/automation/" ++ environment ++ "/queues/result/url"
          stringValue := ParamValue.resultQueueUrl
          description := "Result Queue URL for processing results and feedback" },
        { parameterName := "/automation/" ++ environment ++ "/queues/result/arn"
          stringValue := ParamValue.resultQueueArn
          description := "Result Queue ARN for IAM permissions and monitoring" },
        { parameterName := "/automation/" ++ environment ++ "/queues/config"
          stringValue := ParamValue.queueConfigJson orderVisibility
            orderMaxReceive resultVisibility resultMaxReceive
          description := "Queue configuration parameters for Lambda integration" },
        { parameterName := "/automation/" ++ environment ++ "/roles/webhook/arn"
          stringValue := ParamValue.webhookRoleArn
          description := "Webhook Lambda IAM Role ARN" },
        { parameterName := "/automation/" ++ environment ++ "/roles/worker/arn"
          stringValue := ParamValue.workerRoleArn
          description := "Worker Lambda IAM Role ARN" },
        { parameterName := "/automation/" ++ environment ++ "/roles/feedback/arn"
          stringValue := ParamValue.feedbackRoleArn
          description := "Feedback Lambda IAM Role ARN" },
        { parameterName :=
            "/automation/" ++ environment ++ "/monitoring/queue-alerts/topic-arn"
          stringValue := ParamValue.queueAlertTopicArn
          description :=
            "SNS Topic ARN for queue alerts integration with Watch Tower" } ] }

/-- Shape of the `throttling` prop. -/
structure ThrottlingConfig where
  rateLimit : Option Nat := none
  burstLimit : Option Nat := none
  deriving DecidableEq, Repr

/-- The `ApiGatewayStackProps` interface. -/
structure ApiGatewayStackProps where
  environment : String
  projectName : String
  lambdaFunctionName : String
  certificateArn : String
  hostedZoneId : String
  hostedZoneName : String
  domainName : String
  basePath : String
  throttling : Option ThrottlingConfig := none
  existingDomainRegionalDomainName : Option String := none
  existingDomainRegionalHostedZoneId : Option String := none
  createDnsRecord : Option Bool := none
  deriving DecidableEq, Repr

/-- API Gateway endpoint types. -/
inductive EndpointTypeModel where
  | regional
  | edge
  deriving DecidableEq, Repr

/-- Custom-domain TLS security policies. -/
inductive SecurityPolicyModel where
  | tls10
  | tls12
  deriving DecidableEq, Repr

/-- The REST API resource (`new RestApi(...)`), with its deploy options. -/
structure RestApiModel where
  restApiName : String
  description : String
  endpointType : EndpointTypeModel
  disableExecuteApiEndpoint : Bool
  stageName : String
  throttlingRateLimit : Nat
  throttlingBurstLimit : Nat
  loggingLevel : String
  dataTraceEnabled : Bool
  metricsEnabled : Bool
  resourcePath : String
  methods : List String
  integrationFunctionName : String
  deriving DecidableEq, Repr

/-- The custom-domain binding: either an imported existing domain
(`DomainName.fromDomainNameAttributes`, no resource created) or a fresh
`new DomainName(...)` resource. -/
inductive CustomDomainModel where
  | imported (domainName aliasTarget aliasHostedZoneId : String)
  | created (domainName certificateArn : String)
      (endpointType : EndpointTypeModel) (securityPolicy : SecurityPolicyModel)
  deriving DecidableEq, Repr

/-- Number of domain resources a binding creates in the graph. -/
def domainCreateCount : CustomDomainModel → Nat
  | CustomDomainModel.imported _ _ _ => 0
  | CustomDomainModel.created _ _ _ _ => 1

/-- A Route53 alias record (`new ARecord(...)`). -/
structure DnsRecordModel where
  hostedZoneId : String
  hostedZoneName : String
  recordName : String
  deriving DecidableEq, Repr

/-- The base-path mapping. -/
structure BasePathMappingModel where
  basePath : String
  stage : String
  deriving DecidableEq, Repr

/-- The resource graph produced by the `ApiGatewayStack` constructor. -/
structure ApiGatewayStackModel where
  restApi : RestApiModel
  customDomain : CustomDomainModel
  basePathMapping : BasePathMappingModel
  dnsRecord : Option DnsRecordModel := none
  apiAlertTopic : TopicModel
  apiAlarms : List AlarmModel
  parameters : List StringParameterModel
  deriving DecidableEq, Repr

/-- The `ApiGatewayStack` constructor, translated statement by statement
(REST API, domain import-or-create branch, base-path mapping, conditional
DNS record, topic, two alarms and their wiring, SSM exports). -/
def mkApiGatewayStack (props : ApiGatewayStackProps) : ApiGatewayStackModel :=
  let environment := props.environment
  let projectName := props.projectName
  let createDnsRecord := props.createDnsRecord.getD true
  let stackName := projectName ++ "-" ++ environment
  let rateLimit := (props.throttling.bind ThrottlingConfig.rateLimit).getD 10
  let burstLimit := (props.throttling.bind ThrottlingConfig.burstLimit).getD 25
  let restApi : RestApiModel :=
    { restApiName := projectName ++ "-telegram-bot-api-" ++ environment
      description := "Telegram bot API Gateway for " ++ environment
      endpointType := EndpointTypeModel.regional
      disableExecuteApiEndpoint := true
      stageName := environment
      throttlingRateLimit := rateLimit
      throttlingBurstLimit := burstLimit
      loggingLevel := "INFO"
      dataTraceEnabled := false
      metricsEnabled := true
      resourcePath := "qlibin-assistant-listener"
      methods := ["POST"]
      integrationFunctionName := props.lambdaFunctionName }
  let customDomain : CustomDomainModel :=
    if truthy props.existingDomainRegionalDomainName
        && truthy props.existingDomainRegionalHostedZoneId then
      CustomDomainModel.imported props.domainName
        (props.existingDomainRegionalDomainName.getD "")
        (props.existingDomainRegionalHostedZoneId.getD "")
    else
      CustomDomainModel.created props.domainName props.certificateArn
        EndpointTypeModel.regional SecurityPolicyModel.tls12
  let basePathMapping : BasePathMappingModel :=
    { basePath := props.basePath, stage := environment }
  let dnsRecord : Option DnsRecordModel :=
    if createDnsRecord && !(truthy props.existingDomainRegionalDomainName) then
      some { hostedZoneId := props.hostedZoneId
             hostedZoneName := props.hostedZoneName
             recordName := props.domainName }
    else none
  let apiAlertTopic : TopicModel :=
    { topicName := stackName ++ "-api-alerts"
      displayName := "API Gateway Alerts" }
  let snsWiring : List SnsTargetRef := [SnsTargetRef.apiAlertTopic]
  let error5xxAlarm : AlarmModel :=
    { alarmName := stackName ++ "-api-5xx-errors"
      alarmDescription := "API Gateway 5XX errors detected"
      metric := MetricRef.apiServerError 5 "Sum"
      threshold := 5
      evaluationPeriods := 2
      treatMissingData := some TreatMissingDataModel.notBreaching
      alarmActions := snsWiring
      okActions := snsWiring }
  let latencyAlarm : AlarmModel :=
    { alarmName := stackName ++ "-api-latency"
      alarmDescription := "API Gateway latency exceeds threshold"
      metric := MetricRef.apiLatency 5 "p95"
      threshold := 5000
      evaluationPeriods := 3
      treatMissingData := some TreatMissingDataModel.notBreaching
      alarmActions := snsWiring
      okActions := snsWiring }
  { restApi := restApi
    customDomain := customDomain
    basePathMapping := basePathMapping
    dnsRecord := dnsRecord
    apiAlertTopic := apiAlertTopic
    apiAlarms := [error5xxAlarm, latencyAlarm]
    parameters :=
      [ { parameterName :=
            "/automation/" ++ environment ++ "/api-gateway/rest-api-id"
          stringValue := ParamValue.restApiId
          description := "REST API ID for API Gateway" },
        { parameterName :=
            "/automation/" ++ environment ++ "/api-gateway/rest-api-url"
          stringValue := ParamValue.restApiUrl
          description := "REST API URL (execute-api endpoint)" },
        { parameterName :=
            "/automation/" ++ environment ++ "/api-gateway/domain-name"
          stringValue := ParamValue.str props.domainName
          description := "Custom domain name for API Gateway" },
        { parameterName :=
            "/automation/" ++ environment ++ "/api-gateway/stage-name"
          stringValue := ParamValue.str environment
          description := "API Gateway stage name" },
        { parameterName :=
            "/automation/" ++ environment ++ "/api-gateway/source-arn"
          stringValue := ParamValue.apiSourceArn
          description :=
            "API Gateway source ARN for Lambda resource-based permissions" } ] }

/-- One entry of the `environments` CDK context record. -/
structure EnvConfig where
  account : String
  region : String
  envName : String
  tags : List (String × String) := []
  certificateArn : Option String := none
  hostedZoneId : Option String := none
  hostedZoneName : Option String := none
  domainName : Option String := none
  existingDomainRegionalDomainName : Option String := none
  existingDomainRegionalHostedZoneId : Option String := none
  deriving DecidableEq, Repr

/-- External inputs of the orchestrator: CDK context values and the
`AWS_ACCOUNT_ID` process environment variable. -/
structure AppInput where
  contextEnvironment : Option String := none
  contextEnvName : Option String := none
  environments : Option (List (String × EnvConfig)) := none
  defaultEnvironment : Option String := none
  awsAccountIdEnvVar : Option String := none
  deriving DecidableEq, Repr

/-- Record lookup (`environments[resolvedEnvName]`). -/
def lookupEnv : List (String × EnvConfig) → String → Option EnvConfig
  | [], _ => none
  | (k, v) :: rest, name => if k == name then some v else lookupEnv rest name

/-- Joined key list `Object.keys(environments).join(", ")`. -/
def joinKeys : List (String × EnvConfig) → String
  | [] => ""
  | [(k, _)] => k
  | (k, _) :: rest => k ++ ", " ++ joinKeys rest

/-- Resolution `environmentName ?? defaultEnvironment ?? "dev"` where
`environmentName` is context `environment` falling back to `ENV_NAME`. -/
def resolvedEnvName (inp : AppInput) : String :=
  (nullishOr (nullishOr inp.contextEnvironment inp.contextEnvName)
    inp.defaultEnvironment).getD "dev"

/-- The application graph: the messaging stack, and the gateway stack
when its configuration guard passes (with its recorded dependency on the
messaging stack). -/
structure AppModel where
  sqsStackId : String
  sqsStack : SQSStackModel
  apiGatewayStackId : Option String := none
  apiGatewayStack : Option ApiGatewayStackModel := none
  apiGatewayDependsOnSqs : Bool := false
  deriving DecidableEq, Repr

/-- Stack instantiation for one resolved environment configuration
(lines 57-101 of the orchestrator): the messaging stack is built
unconditionally; the gateway stack only when `certificateArn`,
`hostedZoneId`, `hostedZoneName` and `domainName` are all truthy. -/
def mkApp (envCfg : EnvConfig) : AppModel :=
  let sqsStack := mkSQSStack
    { environment := envCfg.envName
      projectName := "tg-assistant" }
  if truthy envCfg.certificateArn && truthy envCfg.hostedZoneId
      && truthy envCfg.hostedZoneName && truthy envCfg.domainName then
    { sqsStackId := "DualQueueMessageStack-" ++ envCfg.envName
      sqsStack := sqsStack
      apiGatewayStackId := some ("ApiGatewayStack-" ++ envCfg.envName)
      apiGatewayStack := some (mkApiGatewayStack
        { environment := envCfg.envName
          projectName := "tg-assistant"
          lambdaFunctionName := "telegram-webhook-lambda-" ++ envCfg.envName
          certificateArn := envCfg.certificateArn.getD ""
          hostedZoneId := envCfg.hostedZoneId.getD ""
          hostedZoneName := envCfg.hostedZoneName.getD ""
          domainName := envCfg.domainName.getD ""
          basePath := envCfg.envName
          existingDomainRegionalDomainName :=
            envCfg.existingDomainRegionalDomainName
          existingDomainRegionalHostedZoneId :=
            envCfg.existingDomainRegionalHostedZoneId
          createDnsRecord := some false })
      apiGatewayDependsOnSqs := true }
  else
    { sqsStackId := "DualQueueMessageStack-" ++ envCfg.envName
      sqsStack := sqsStack }

/-- The orchestrator (`bin/tg-assistant-infra.ts`): context validation,
environment resolution, account sanity check, then stack instantiation.
A thrown `Error` is modelled as `Except.error` carrying the message; in
the error case no part of the resource graph is constructed. -/
def buildApp (inp : AppInput) : Except String AppModel :=
  match inp.environments with
  | none =>
    Except.error
      "CDK context missing. Ensure cdk.json has context.environments configured."
  | some envs =>
    if envs.isEmpty then
      Except.error
        "CDK context missing. Ensure cdk.json has context.environments configured."
    else
      match lookupEnv envs (resolvedEnvName inp) with
      | none =>
        Except.error ("Unknown environment \x27" ++ resolvedEnvName inp
          ++ "\x27. Available: " ++ joinKeys envs)
      | some envCfg =>
        if truthy inp.awsAccountIdEnvVar
            && !(inp.awsAccountIdEnvVar.getD "" == envCfg.account) then
          Except.error ("AWS account mismatch: AWS_ACCOUNT_ID="
            ++ inp.awsAccountIdEnvVar.getD ""
            ++ " does not match CDK context account=" ++ envCfg.account
            ++ " for environment \x27" ++ resolvedEnvName inp ++ "\x27.")
        else
          Except.ok (mkApp envCfg)

/-! ### Derived notions used by the properties -/

/-- All inline policy statements of a role, in declaration order. -/
def roleStatements (r : RoleModel) : List PolicyStatementModel :=
  (r.inlinePolicies.map Prod.snd).flatten

/-- Number of inline statements of a role that grant exactly
`kms:Decrypt` + `kms:GenerateDataKey` scoped to the shared key only. -/
def kmsStatementCount (r : RoleModel) : Nat :=
  (roleStatements r).countP (fun st =>
    st.actions == ["kms:Decrypt", "kms:GenerateDataKey"]
    && st.resources == [ArnRef.queueEncryptionKeyArn])

/-- Resources the 4.3 table allows the webhook (intake-producer)
identity to reference: the intake queue and the shared key. -/
def allowedWebhookResources : List ArnRef :=
  [ArnRef.orderQueueArn, ArnRef.queueEncryptionKeyArn]

/-- Resources the 4.3 table allows the worker identity to reference:
both primary queues and the shared key. -/
def allowedWorkerResources : List ArnRef :=
  [ArnRef.orderQueueArn, ArnRef.resultQueueArn, ArnRef.queueEncryptionKeyArn]

/-- Resources the 4.3 table allows the feedback identity to reference:
both primary queues and the shared key. -/
def allowedFeedbackResources : List ArnRef :=
  [ArnRef.resultQueueArn, ArnRef.orderQueueArn, ArnRef.queueEncryptionKeyArn]

/-- A resource name follows the published `{project}-{environment}-{purpose}`
convention for some non-empty purpose. -/
def NamingPattern (project env name : String) : Prop :=
  ∃ purpose : String, purpose ≠ "" ∧ name = project ++ "-" ++ env ++ "-" ++ purpose

theorem namingPattern_mk (project env rest purpose : String) (hp : purpose ≠ "")
    (hr : rest = "-" ++ purpose) :
    NamingPattern project env (project ++ "-" ++ env ++ rest) :=
  ⟨purpose, hp, by rw [hr, ← String.append_assoc]⟩

/-! ### C1, C3, C8, C10 -/

/-- C1: every inline policy statement of the three service identities has
resources inside the 4.3 allowance of that identity, no statement resource is a
wildcard, and each identity has exactly one statement granting
`kms:Decrypt`+`kms:GenerateDataKey` scoped to the shared key only. -/
theorem c1_least_privilege (props : SQSStackProps) :
    (∀ st ∈ roleStatements (mkSQSStack props).webhookRole,
        (∀ r ∈ st.resources, r ∈ allowedWebhookResources)
        ∧ ArnRef.wildcard ∉ st.resources)
    ∧ (∀ st ∈ roleStatements (mkSQSStack props).workerRole,
        (∀ r ∈ st.resources, r ∈ allowedWorkerResources)
        ∧ ArnRef.wildcard ∉ st.resources)
    ∧ (∀ st ∈ roleStatements (mkSQSStack props).feedbackRole,
        (∀ r ∈ st.resources, r ∈ allowedFeedbackResources)
        ∧ ArnRef.wildcard ∉ st.resources)
    ∧ kmsStatementCount (mkSQSStack props).webhookRole = 1
    ∧ kmsStatementCount (mkSQSStack props).workerRole = 1
    ∧ kmsStatementCount (mkSQSStack props).feedbackRole = 1 := by
  refine ⟨?_, ?_, ?_, rfl, rfl, rfl⟩
  · intro st hst
    simp only [roleStatements, mkSQSStack, List.map, List.flatten,
      List.append_nil, List.mem_cons, List.not_mem_nil, or_false] at hst
    rcases hst with rfl | rfl <;> decide
  · intro st hst
    simp only [roleStatements, mkSQSStack, List.map, List.flatten,
      List.append_nil, List.mem_cons, List.not_mem_nil, or_false] at hst
    rcases hst with rfl | rfl | rfl <;> decide
  · intro st hst
    simp only [roleStatements, mkSQSStack, List.map, List.flatten,
      List.append_nil, List.mem_cons, List.not_mem_nil, or_false] at hst
    rcases hst with rfl | rfl | rfl <;> decide

/-- C3: the intake (order) queue is built with visibility timeout
override-else-300, retention 14 days, 6 s long-poll wait and a redrive to
its DLQ with max receive count override-else-3; the result queue with
override-else-180, retention 7 days, the same wait and override-else-3;
both DLQs with retention 7 days. -/
theorem c3_queue_settings (props : SQSStackProps) :
    (mkSQSStack props).orderQueue.visibilityTimeoutSeconds
      = some (match props.orderQueueConfig with
              | some c => c.visibilityTimeoutSeconds.getD 300
              | none => 300)
    ∧ (mkSQSStack props).orderQueue.retentionDays = 14
    ∧ (mkSQSStack props).orderQueue.receiveMessageWaitTimeSeconds = some 6
    ∧ (mkSQSStack props).orderQueue.deadLetterQueue
      = some { queue := ArnRef.orderDLQArn
               maxReceiveCount := match props.orderQueueConfig with
                 | some c => c.maxReceiveCount.getD 3
                 | none => 3 }
    ∧ (mkSQSStack props).resultQueue.visibilityTimeoutSeconds
      = some (match props.resultQueueConfig with
              | some c => c.visibilityTimeoutSeconds.getD 180
              | none => 180)
    ∧ (mkSQSStack props).resultQueue.retentionDays = 7
    ∧ (mkSQSStack props).resultQueue.receiveMessageWaitTimeSeconds = some 6
    ∧ (mkSQSStack props).resultQueue.deadLetterQueue
      = some { queue := ArnRef.resultDLQArn
               maxReceiveCount := match props.resultQueueConfig with
                 | some c => c.maxReceiveCount.getD 3
                 | none => 3 }
    ∧ (mkSQSStack props).orderDLQ.retentionDays = 7
    ∧ (mkSQSStack props).resultDLQ.retentionDays = 7 := by
  obtain ⟨env, proj, enc, cost, wt, oqc, rqc⟩ := props
  cases oqc <;> cases rqc <;>
    exact ⟨rfl, rfl, rfl, rfl, rfl, rfl, rfl, rfl, rfl, rfl⟩

/-- C8: the messaging graph has exactly the four alarms of the 4.4 table
(metric, threshold, evaluation periods, missing-data policy), and each of
them is wired to the single queue-alert notification channel on both
alarm-state entry and recovery. -/
theorem c8_alarm_wiring (props : SQSStackProps) :
    (mkSQSStack props).alarms.length = 4
    ∧ (mkSQSStack props).alarms.map (fun a =>
        (a.metric, a.threshold, a.evaluationPeriods, a.treatMissingData))
      = [(MetricRef.approximateAgeOfOldestMessage ArnRef.orderQueueArn 5,
            900, 2, none),
         (MetricRef.approximateAgeOfOldestMessage ArnRef.resultQueueArn 3,
            600, 2, none),
         (MetricRef.approximateNumberOfMessagesVisible ArnRef.orderDLQArn,
            1, 1, some TreatMissingDataModel.notBreaching),
         (MetricRef.approximateNumberOfMessagesVisible ArnRef.resultDLQArn,
            1, 1, none)]
    ∧ ∀ a ∈ (mkSQSStack props).alarms,
        a.alarmActions = [SnsTargetRef.queueAlertTopic]
        ∧ a.okActions = [SnsTargetRef.queueAlertTopic] := by
  refine ⟨rfl, rfl, ?_⟩
  intro a ha
  simp only [mkSQSStack, List.mem_cons, List.not_mem_nil, or_false] at ha
  rcases ha with rfl | rfl | rfl | rfl <;> exact ⟨rfl, rfl⟩

/-- C10: the queue-alert notification topic is always created with the
shared encryption key as its master key, even when `enableEncryption`
is false and the four queues are therefore created without the key. -/
theorem c10_topic_always_encrypted (props : SQSStackProps) :
    (mkSQSStack props).queueAlertTopic.masterKey
      = some ArnRef.queueEncryptionKeyArn
    ∧ (props.enableEncryption = some false →
        (mkSQSStack props).orderQueue.encryptionMasterKey = none
        ∧ (mkSQSStack props).resultQueue.encryptionMasterKey = none
        ∧ (mkSQSStack props).orderDLQ.encryptionMasterKey = none
        ∧ (mkSQSStack props).resultDLQ.encryptionMasterKey = none) := by
  refine ⟨rfl, fun h => ?_⟩
  simp only [mkSQSStack, h]
  exact ⟨rfl, rfl, rfl, rfl⟩

/-- A concrete messaging configuration with queue encryption disabled. -/
def sqsPropsNoEncryption : SQSStackProps :=
  { environment := "dev"
    projectName := "tg-assistant"
    enableEncryption := some false }

/-- Witness for C10 at a concrete configuration with encryption disabled:
the topic keeps the key while the intake queue is unencrypted. -/
theorem c10_topic_always_encrypted_witness :
    (mkSQSStack sqsPropsNoEncryption).queueAlertTopic.masterKey
      = some ArnRef.queueEncryptionKeyArn
    ∧ (mkSQSStack sqsPropsNoEncryption).orderQueue.encryptionMasterKey
      = none :=
  ⟨(c10_topic_always_encrypted sqsPropsNoEncryption).1,
   ((c10_topic_always_encrypted sqsPropsNoEncryption).2 rfl).1⟩

/-! ### C2: account mismatch fails fast -/

/-- C2: when a truthy `AWS_ACCOUNT_ID` is supplied and differs from the
account of the resolved configuration, the orchestrator fails with an error
message containing both identifiers, and no resource graph is produced
(the build never returns a graph). -/
theorem c2_account_mismatch (inp : AppInput) (envs : List (String × EnvConfig))
    (cfg : EnvConfig) (p : String)
    (henvs : inp.environments = some envs)
    (hne : envs ≠ [])
    (hlookup : lookupEnv envs (resolvedEnvName inp) = some cfg)
    (hp : inp.awsAccountIdEnvVar = some p)
    (hpne : p ≠ "")
    (hmismatch : p ≠ cfg.account) :
    (∃ msg, buildApp inp = Except.error msg
      ∧ ∃ a b c, msg = a ++ p ++ b ++ cfg.account ++ c)
    ∧ ∀ m, buildApp inp ≠ Except.ok m := by
  have h0 : envs.isEmpty = false := by
    cases envs with
    | nil => exact absurd rfl hne
    | cons a l => rfl
  have h1 : (p == "") = false := beq_eq_false_iff_ne.mpr hpne
  have h2 : (p == cfg.account) = false := beq_eq_false_iff_ne.mpr hmismatch
  have hbuild : buildApp inp = Except.error ("AWS account mismatch: AWS_ACCOUNT_ID="
      ++ p ++ " does not match CDK context account=" ++ cfg.account
      ++ " for environment \x27" ++ resolvedEnvName inp ++ "\x27.") := by
    unfold buildApp
    rw [henvs]
    simp only [h0, Bool.false_eq_true, if_false, hlookup, hp, truthy,
      Option.getD_some, h1, h2, Bool.not_false, Bool.and_self, if_true]
  refine ⟨⟨_, hbuild, "AWS account mismatch: AWS_ACCOUNT_ID=",
    " does not match CDK context account=",
    " for environment \x27" ++ resolvedEnvName inp ++ "\x27.", ?_⟩, ?_⟩
  · simp only [String.append_assoc]
  · intro m hm
    rw [hbuild] at hm
    exact Except.noConfusion hm

/-- A concrete environment configuration without gateway domain data. -/
def envCfgDev : EnvConfig :=
  { account := "111111111111", region := "eu-west-1", envName := "dev" }

/-- A concrete orchestrator input whose `AWS_ACCOUNT_ID` differs from the
configured account of the resolved environment. -/
def mismatchInput : AppInput :=
  { environments := some [("dev", envCfgDev)]
    awsAccountIdEnvVar := some "222222222222" }

/-- Witness for C2 at a concrete mismatching input. -/
theorem c2_account_mismatch_witness :
    (∃ msg, buildApp mismatchInput = Except.error msg
      ∧ ∃ a b c, msg = a ++ "222222222222" ++ b ++ "111111111111" ++ c)
    ∧ ∀ m, buildApp mismatchInput ≠ Except.ok m :=
  c2_account_mismatch mismatchInput [("dev", envCfgDev)] envCfgDev
    "222222222222" rfl (by decide) rfl rfl (by decide) (by decide)

/-! ### C9: determinism and path purity -/

/-- The nine messaging parameter paths, a pure function of the
environment name. -/
def messagingParameterNames (environment : String) : List String :=
  [ "/automation/" ++ environment ++ "/queues/order/url",
    "/automation/" ++ environment ++ "/queues/order/arn",
    "/automation/" ++ environment ++ "/queues/result/url",
    "/automation/" ++ environment ++ "/queues/result/arn",
    "/automation/" ++ environment ++ "/queues/config",
    "/automation/" ++ environment ++ "/roles/webhook/arn",
    "/automation/" ++ environment ++ "/roles/worker/arn",
    "/automation/" ++ environment ++ "/roles/feedback/arn",
    "/automation/" ++ environment ++ "/monitoring/queue-alerts/topic-arn" ]

theorem messaging_parameter_names_eq (props : SQSStackProps) :
    (mkSQSStack props).parameters.map StringParameterModel.parameterName
      = messagingParameterNames props.environment := rfl

/-- C9: the builders are deterministic functions of their configuration
input (equal inputs give identical stack graphs and identical application
graphs), and the published parameter paths are a pure function of the
environment name alone. -/
theorem c9_idempotence (p q : SQSStackProps) (i j : AppInput)
    (hpq : p = q) (hij : i = j) :
    mkSQSStack p = mkSQSStack q
    ∧ buildApp i = buildApp j
    ∧ ∀ p2 : SQSStackProps, p.environment = p2.environment →
        (mkSQSStack p).parameters.map StringParameterModel.parameterName
          = (mkSQSStack p2).parameters.map StringParameterModel.parameterName := by
  subst hpq
  subst hij
  refine ⟨rfl, rfl, ?_⟩
  intro p2 henv
  rw [messaging_parameter_names_eq, messaging_parameter_names_eq, henv]

/-- A concrete messaging configuration (defaults only). -/
def sqsPropsDev : SQSStackProps :=
  { environment := "dev", projectName := "tg-assistant" }

/-- Witness for C9 at concrete equal inputs. -/
theorem c9_idempotence_witness :
    mkSQSStack sqsPropsDev = mkSQSStack sqsPropsDev
    ∧ buildApp mismatchInput = buildApp mismatchInput
    ∧ ∀ p2 : SQSStackProps, sqsPropsDev.environment = p2.environment →
        (mkSQSStack sqsPropsDev).parameters.map StringParameterModel.parameterName
          = (mkSQSStack p2).parameters.map StringParameterModel.parameterName :=
  c9_idempotence sqsPropsDev sqsPropsDev mismatchInput mismatchInput rfl rfl

/-! ### C7 (corrected): queue encryption depends on the flag -/

/-- All four queues of a messaging graph reference the shared rotating
key as their encryption master key. -/
def allQueuesEncrypted (m : SQSStackModel) : Prop :=
  m.orderQueue.encryptionMasterKey = some ArnRef.queueEncryptionKeyArn
  ∧ m.resultQueue.encryptionMasterKey = some ArnRef.queueEncryptionKeyArn
  ∧ m.orderDLQ.encryptionMasterKey = some ArnRef.queueEncryptionKeyArn
  ∧ m.resultDLQ.encryptionMasterKey = some ArnRef.queueEncryptionKeyArn

instance (m : SQSStackModel) : Decidable (allQueuesEncrypted m) := by
  unfold allQueuesEncrypted
  infer_instance

/-- A configuration the builder accepts with queue encryption disabled. -/
def sqsPropsProdNoEnc : SQSStackProps :=
  { environment := "prod", projectName := "tg-assistant"
    enableEncryption := some false }

/-- C7 counterexample: the builder accepts `enableEncryption := false`
and then creates all four queues without the shared key. -/
theorem c7_counterexample : ¬ allQueuesEncrypted (mkSQSStack sqsPropsProdNoEnc) := by
  decide

/-- C7 amended: all four queues reference the shared key whenever
`enableEncryption` is not explicitly false (it defaults to true); the
orchestrator never sets the flag, so every orchestrated messaging graph
has all four queues encrypted with the shared key. -/
theorem c7_queue_encryption_amended (props : SQSStackProps) (cfg : EnvConfig)
    (h : props.enableEncryption ≠ some false) :
    allQueuesEncrypted (mkSQSStack props)
    ∧ allQueuesEncrypted (mkApp cfg).sqsStack := by
  constructor
  · have he : props.enableEncryption.getD true = true := by
      cases hb : props.enableEncryption with
      | none => rfl
      | some b =>
        cases b with
        | false => exact absurd hb h
        | true => rfl
    simp [allQueuesEncrypted, mkSQSStack, he]
  · unfold mkApp
    split <;> exact ⟨rfl, rfl, rfl, rfl⟩

/-- Witness for the amended C7 statement at concrete inputs. -/
theorem c7_queue_encryption_amended_witness :
    allQueuesEncrypted (mkSQSStack sqsPropsDev)
    ∧ allQueuesEncrypted (mkApp envCfgDev).sqsStack :=
  c7_queue_encryption_amended sqsPropsDev envCfgDev (by decide)

/-! ### C5 (corrected): the gateway activation guard -/

/-- Modelled from the spec (4.6): a complete domain configuration in the
sense of the claim, with the certificate-or-import disjunction read literally:
certificate data or import-alias data, plus hosted-zone data and a
domain name. -/
def specCompleteDomainConfig (cfg : EnvConfig) : Bool :=
  (truthy cfg.certificateArn
    || (truthy cfg.existingDomainRegionalDomainName
        && truthy cfg.existingDomainRegionalHostedZoneId))
  && truthy cfg.hostedZoneId && truthy cfg.hostedZoneName
  && truthy cfg.domainName

/-- An environment configuration carrying import-alias data, hosted-zone
data and a domain name, but no certificate. -/
def importOnlyEnvCfg : EnvConfig :=
  { account := "111111111111", region := "eu-west-1", envName := "prod"
    hostedZoneId := some "Z0123456789"
    hostedZoneName := some "example.com"
    domainName := some "tg.example.com"
    existingDomainRegionalDomainName :=
      some "d-abc123.execute-api.eu-west-1.amazonaws.com"
    existingDomainRegionalHostedZoneId := some "Z2REGIONAL" }

/-- C5 counterexample: this configuration is complete in the spec reading of
certificate-or-import sense, yet the orchestrator skips the gateway
because the guard requires the certificate field itself. -/
theorem c5_counterexample :
    specCompleteDomainConfig importOnlyEnvCfg = true
    ∧ (mkApp importOnlyEnvCfg).apiGatewayStack = none := ⟨rfl, rfl⟩

/-- C5 amended: the gateway stack is instantiated iff `certificateArn`,
`hostedZoneId`, `hostedZoneName` and `domainName` are all present
(import-alias data does not substitute for the certificate); when the
guard fails the gateway is silently skipped while the build still
succeeds, and the messaging stack is built unconditionally. -/
theorem c5_gateway_guard_amended (inp : AppInput)
    (envs : List (String × EnvConfig)) (cfg : EnvConfig)
    (henvs : inp.environments = some envs)
    (hne : envs ≠ [])
    (hlookup : lookupEnv envs (resolvedEnvName inp) = some cfg)
    (hacct : (truthy inp.awsAccountIdEnvVar
        && !(inp.awsAccountIdEnvVar.getD "" == cfg.account)) = false) :
    buildApp inp = Except.ok (mkApp cfg)
    ∧ (mkApp cfg).apiGatewayStack.isSome
        = (truthy cfg.certificateArn && truthy cfg.hostedZoneId
           && truthy cfg.hostedZoneName && truthy cfg.domainName)
    ∧ (mkApp cfg).sqsStack
        = mkSQSStack { environment := cfg.envName, projectName := "tg-assistant" }
    ∧ (mkApp cfg).sqsStackId = "DualQueueMessageStack-" ++ cfg.envName := by
  have h0 : envs.isEmpty = false := by
    cases envs with
    | nil => exact absurd rfl hne
    | cons a l => rfl
  refine ⟨?_, ?_, ?_, ?_⟩
  · unfold buildApp
    rw [henvs]
    simp only [h0, Bool.false_eq_true, if_false, hlookup, hacct]
  · unfold mkApp
    split
    next h => rw [h]; rfl
    next h =>
      rw [Bool.not_eq_true] at h
      rw [h]
      rfl
  · unfold mkApp
    split <;> rfl
  · unfold mkApp
    split <;> rfl

/-- A concrete orchestrator input resolving to `importOnlyEnvCfg`. -/
def c5WitnessInput : AppInput :=
  { contextEnvironment := some "prod"
    environments := some [("prod", importOnlyEnvCfg)] }

/-- Witness for the amended C5 statement at a concrete input. -/
theorem c5_gateway_guard_amended_witness :
    buildApp c5WitnessInput = Except.ok (mkApp importOnlyEnvCfg)
    ∧ (mkApp importOnlyEnvCfg).apiGatewayStack.isSome
        = (truthy importOnlyEnvCfg.certificateArn
           && truthy importOnlyEnvCfg.hostedZoneId
           && truthy importOnlyEnvCfg.hostedZoneName
           && truthy importOnlyEnvCfg.domainName)
    ∧ (mkApp importOnlyEnvCfg).sqsStack
        = mkSQSStack { environment := importOnlyEnvCfg.envName
                       projectName := "tg-assistant" }
    ∧ (mkApp importOnlyEnvCfg).sqsStackId
        = "DualQueueMessageStack-" ++ importOnlyEnvCfg.envName :=
  c5_gateway_guard_amended c5WitnessInput [("prod", importOnlyEnvCfg)]
    importOnlyEnvCfg rfl (by decide) rfl rfl

/-! ### C4: the domain create-or-import state machine -/

/-- C4: with both alias-import fields supplied (truthy) the gateway binds
to the imported domain, creating zero domain resources and zero DNS
records; with both fields absent it creates exactly one TLS-1.2-minimum
domain bound to the given certificate, and a DNS record exists iff the
create-record flag (default true) is set. -/
theorem c4_domain_binding (props : ApiGatewayStackProps) :
    (truthy props.existingDomainRegionalDomainName = true →
      truthy props.existingDomainRegionalHostedZoneId = true →
        (mkApiGatewayStack props).customDomain
          = CustomDomainModel.imported props.domainName
              (props.existingDomainRegionalDomainName.getD "")
              (props.existingDomainRegionalHostedZoneId.getD "")
        ∧ domainCreateCount (mkApiGatewayStack props).customDomain = 0
        ∧ (mkApiGatewayStack props).dnsRecord = none)
    ∧ (props.existingDomainRegionalDomainName = none →
        props.existingDomainRegionalHostedZoneId = none →
        (mkApiGatewayStack props).customDomain
          = CustomDomainModel.created props.domainName props.certificateArn
              EndpointTypeModel.regional SecurityPolicyModel.tls12
        ∧ domainCreateCount (mkApiGatewayStack props).customDomain = 1
        ∧ (mkApiGatewayStack props).dnsRecord.isSome
            = props.createDnsRecord.getD true) := by
  constructor
  · intro h1 h2
    refine ⟨?_, ?_, ?_⟩ <;>
      simp [mkApiGatewayStack, h1, h2, domainCreateCount]
  · intro h1 h2
    have ht : truthy props.existingDomainRegionalDomainName = false := by
      rw [h1]; rfl
    refine ⟨?_, ?_, ?_⟩
    · simp [mkApiGatewayStack, ht, h2, truthy]
    · simp [mkApiGatewayStack, ht, h2, truthy, domainCreateCount]
    · cases hcd : props.createDnsRecord.getD true <;>
        simp [mkApiGatewayStack, ht, hcd]

/-- Concrete gateway props exercising the import branch. -/
def importGatewayProps : ApiGatewayStackProps :=
  { environment := "prod", projectName := "tg-assistant"
    lambdaFunctionName := "telegram-webhook-lambda-prod"
    certificateArn := "arn:aws:acm:eu-west-1:111111111111:certificate/abc"
    hostedZoneId := "Z0123456789"
    hostedZoneName := "example.com"
    domainName := "tg.example.com"
    basePath := "prod"
    existingDomainRegionalDomainName :=
      some "d-abc123.execute-api.eu-west-1.amazonaws.com"
    existingDomainRegionalHostedZoneId := some "Z2REGIONAL" }

/-- Concrete gateway props exercising the create branch with a DNS
record requested. -/
def createGatewayProps : ApiGatewayStackProps :=
  { environment := "dev", projectName := "tg-assistant"
    lambdaFunctionName := "telegram-webhook-lambda-dev"
    certificateArn := "arn:aws:acm:eu-west-1:111111111111:certificate/def"
    hostedZoneId := "Z0123456789"
    hostedZoneName := "example.com"
    domainName := "tg-dev.example.com"
    basePath := "dev"
    createDnsRecord := some true }

/-- Witness for C4 covering both branches at concrete inputs. -/
theorem c4_domain_binding_witness :
    ((mkApiGatewayStack importGatewayProps).customDomain
        = CustomDomainModel.imported importGatewayProps.domainName
            (importGatewayProps.existingDomainRegionalDomainName.getD "")
            (importGatewayProps.existingDomainRegionalHostedZoneId.getD "")
      ∧ domainCreateCount (mkApiGatewayStack importGatewayProps).customDomain = 0
      ∧ (mkApiGatewayStack importGatewayProps).dnsRecord = none)
    ∧ ((mkApiGatewayStack createGatewayProps).customDomain
        = CustomDomainModel.created createGatewayProps.domainName
            createGatewayProps.certificateArn
            EndpointTypeModel.regional SecurityPolicyModel.tls12
      ∧ domainCreateCount (mkApiGatewayStack createGatewayProps).customDomain = 1
      ∧ (mkApiGatewayStack createGatewayProps).dnsRecord.isSome
          = createGatewayProps.createDnsRecord.getD true) :=
  ⟨(c4_domain_binding importGatewayProps).1 rfl rfl,
   (c4_domain_binding createGatewayProps).2 rfl rfl⟩

/-! ### C6 (corrected): the naming convention -/

/-- Character-list comparison used to refute a naming-pattern claim:
does the first list open the second one? -/
def startsWithChars : List Char → List Char → Bool
  | [], _ => true
  | _ :: _, [] => false
  | a :: as, b :: bs => (a == b) && startsWithChars as bs

theorem startsWithChars_append (l r : List Char) :
    startsWithChars l (l ++ r) = true := by
  induction l with
  | nil => rfl
  | cons a as ih => simp [startsWithChars, ih]

/-- C6 counterexample: for environment `dev` the REST API is named
`tg-assistant-telegram-bot-api-dev`, which does not match
`{project}-{environment}-{purpose}` (the environment does not follow the
project in the name). -/
theorem c6_counterexample :
    ¬ NamingPattern "tg-assistant" "dev"
        (mkApiGatewayStack createGatewayProps).restApi.restApiName := by
  intro hpat
  obtain ⟨purpose, hp, h⟩ := hpat
  have h2 : ("tg-assistant-telegram-bot-api-dev" : String)
      = "tg-assistant" ++ "-" ++ "dev" ++ "-" ++ purpose := h
  have hd := congrArg String.data h2
  simp only [String.data_append] at hd
  have hpre : ("tg-assistant-dev-" : String).data
      = ("tg-assistant" : String).data ++ ("-" : String).data
        ++ ("dev" : String).data ++ ("-" : String).data := rfl
  rw [← hpre] at hd
  have hd2 : ("tg-assistant-telegram-bot-api-dev" : String).data
      = ("tg-assistant-dev-" : String).data ++ purpose.data := hd
  have hsw : startsWithChars ("tg-assistant-dev-" : String).data
      ("tg-assistant-telegram-bot-api-dev" : String).data = true := by
    rw [hd2]
    exact startsWithChars_append _ _
  exact absurd hsw (by decide)

/-- C6 amended: every named resource of both stacks except the REST API
matches `{project}-{environment}-{purpose}` exactly; the REST API is
named `{project}-telegram-bot-api-{environment}` instead; the stack
identifiers are `DualQueueMessageStack-{environment}` and
`ApiGatewayStack-{environment}`. -/
theorem c6_naming_amended (props : SQSStackProps)
    (gprops : ApiGatewayStackProps) (cfg : EnvConfig) :
    (∀ name ∈ [(mkSQSStack props).orderQueue.queueName,
               (mkSQSStack props).resultQueue.queueName,
               (mkSQSStack props).orderDLQ.queueName,
               (mkSQSStack props).resultDLQ.queueName,
               (mkSQSStack props).webhookRole.roleName,
               (mkSQSStack props).workerRole.roleName,
               (mkSQSStack props).feedbackRole.roleName,
               (mkSQSStack props).queueAlertTopic.topicName]
          ++ (mkSQSStack props).alarms.map AlarmModel.alarmName,
        NamingPattern props.projectName props.environment name)
    ∧ (∀ name ∈ (mkApiGatewayStack gprops).apiAlertTopic.topicName
          :: (mkApiGatewayStack gprops).apiAlarms.map AlarmModel.alarmName,
        NamingPattern gprops.projectName gprops.environment name)
    ∧ (mkApiGatewayStack gprops).restApi.restApiName
        = gprops.projectName ++ "-telegram-bot-api-" ++ gprops.environment
    ∧ (mkApp cfg).sqsStackId = "DualQueueMessageStack-" ++ cfg.envName
    ∧ ((mkApp cfg).apiGatewayStackId = none
        ∨ (mkApp cfg).apiGatewayStackId
            = some ("ApiGatewayStack-" ++ cfg.envName)) := by
  refine ⟨?_, ?_, rfl, ?_, ?_⟩
  · intro name hname
    simp only [mkSQSStack, List.map_cons, List.map_nil, List.cons_append,
      List.nil_append, List.mem_cons, List.not_mem_nil, or_false] at hname
    rcases hname with rfl | rfl | rfl | rfl | rfl | rfl | rfl | rfl | rfl
      | rfl | rfl | rfl
    · exact namingPattern_mk _ _ _ "order" (by decide) rfl
    · exact namingPattern_mk _ _ _ "result" (by decide) rfl
    · exact namingPattern_mk _ _ _ "order-dlq" (by decide) rfl
    · exact namingPattern_mk _ _ _ "result-dlq" (by decide) rfl
    · exact namingPattern_mk _ _ _ "webhook-role" (by decide) rfl
    · exact namingPattern_mk _ _ _ "worker-role" (by decide) rfl
    · exact namingPattern_mk _ _ _ "feedback-role" (by decide) rfl
    · exact namingPattern_mk _ _ _ "queue-alerts" (by decide) rfl
    · exact namingPattern_mk _ _ _ "order-message-age" (by decide) rfl
    · exact namingPattern_mk _ _ _ "result-message-age" (by decide) rfl
    · exact namingPattern_mk _ _ _ "order-dlq-messages" (by decide) rfl
    · exact namingPattern_mk _ _ _ "result-dlq-messages" (by decide) rfl
  · intro name hname
    simp only [mkApiGatewayStack, List.map_cons, List.map_nil, List.mem_cons,
      List.not_mem_nil, or_false] at hname
    rcases hname with rfl | rfl | rfl
    · exact namingPattern_mk _ _ _ "api-alerts" (by decide) rfl
    · exact namingPattern_mk _ _ _ "api-5xx-errors" (by decide) rfl
    · exact namingPattern_mk _ _ _ "api-latency" (by decide) rfl
  · unfold mkApp
    split <;> rfl
  · unfold mkApp
    split
    · right; rfl
    · left; rfl

end TgAssistantInfra
